import Mathlib

/-!
Verification of the vibe-edit timeline core: the Entity Store data model,
the Project Engine mutation operations, the Command Translator
(`executeCommand` / the batch execution loop from the AI edit command),
and project-file serialization.

Times are modelled as rationals (the source uses JS numbers in seconds;
every operation verified here uses only `+`, `-`, `min`, `max` and
comparisons, so `ℚ` is a faithful executable carrier).  Opaque unique
string ids are modelled as naturals minted from a per-project counter.
-/

namespace VibeEdit

/-- Media kind of a source or track (`"video" | "audio" | "image"`). -/
inductive MediaType
  | video
  | audio
  | image
deriving DecidableEq

/-- String label of a media type, as used when the translator builds track names. -/
def MediaType.label : MediaType → String
  | .video => "video"
  | .audio => "audio"
  | .image => "image"

/-- Project aspect-ratio presets (16:9, 9:16, 1:1, 4:5). -/
inductive Aspect
  | a16x9
  | a9x16
  | a1x1
  | a4x5
deriving DecidableEq

/-- A value in a free-form effect parameter mapping (numeric or string). -/
inductive PValue
  | num (q : ℚ)
  | str (s : String)
deriving DecidableEq

/-- Modelled from the spec: an Effect attached to a clip — id, type preset,
start offset within the clip, duration, free-form parameter mapping. -/
structure Effect where
  id : Nat
  type : String
  startTime : ℚ
  duration : ℚ
  params : List (String × PValue)
deriving DecidableEq

/-- Modelled from the spec: a Clip — a placed, trimmed window of a source on a
track, owning an ordered list of effects. -/
structure Clip where
  id : Nat
  sourceId : Nat
  trackId : Nat
  startTime : ℚ
  duration : ℚ
  sourceStartOffset : ℚ
  sourceEndOffset : ℚ
  effects : List Effect
deriving DecidableEq

/-- Modelled from the spec: a Track — an ordered lane of one media kind. -/
structure Track where
  id : Nat
  type : MediaType
  name : String
  order : Nat
  isMuted : Bool
  isLocked : Bool
  isVisible : Bool
deriving DecidableEq

/-- Modelled from the spec: a Source — a reference to raw media. -/
structure Source where
  id : Nat
  name : String
  type : MediaType
  path : String
  duration : ℚ
  width : Nat
  height : Nat
deriving DecidableEq

/-- Modelled from the spec: the Project root aggregate owning all sources,
tracks and clips, with the derived total duration. -/
structure Project where
  name : String
  aspect : Aspect
  frameRate : Nat
  duration : ℚ
  sources : List Source
  tracks : List Track
  clips : List Clip
deriving DecidableEq

/-- Engine state: the project plus the fresh-id counter backing generated ids. -/
structure EngineState where
  project : Project
  nextId : Nat
deriving DecidableEq

/-- Modelled from the spec: the error taxonomy of the Project Engine and the
serialization layer. -/
inductive EngineError
  | notFound
  | invalidRange
  | referenceError
  | unsupportedVersion
deriving DecidableEq

/-- Result of a fallible engine operation (models a TS function that may throw). -/
inductive EResult (α : Type)
  | ok (a : α)
  | error (e : EngineError)
deriving DecidableEq

/-- End position of a clip on the timeline. -/
def clipEnd (c : Clip) : ℚ := c.startTime + c.duration

/-- Maximum over all clips of `startTime + duration`, with 0 for no clips. -/
def maxEnd (clips : List Clip) : ℚ :=
  clips.foldr (fun c acc => max (clipEnd c) acc) 0

/-- Recompute the derived project duration from the current clips. -/
def recompute (p : Project) : Project :=
  { p with duration := maxEnd p.clips }

/-- Look up a clip by id. -/
def findClip (p : Project) (id : Nat) : Option Clip :=
  p.clips.find? (fun c => c.id == id)

/-- Look up a source by id. -/
def findSource (p : Project) (id : Nat) : Option Source :=
  p.sources.find? (fun s => s.id == id)

/-- Look up a track by id. -/
def findTrack (p : Project) (id : Nat) : Option Track :=
  p.tracks.find? (fun t => t.id == id)

/-- Replace the clip with the given id by a new clip, in place. -/
def replaceClip (clips : List Clip) (id : Nat) (c' : Clip) : List Clip :=
  clips.map (fun c => if c.id == id then c' else c)

/-- Replace the clip with the given id by two clips, in place. -/
def splitReplace (clips : List Clip) (id : Nat) (a b : Clip) : List Clip :=
  clips.foldr (fun c acc => (if c.id == id then [a, b] else [c]) ++ acc) []

/-- Clone a list of effects, minting a fresh id for each clone; returns the
clones and the advanced id counter. -/
def cloneEffects : List Effect → Nat → List Effect × Nat
  | [], n => ([], n)
  | e :: rest, n =>
    let r := cloneEffects rest (n + 1)
    ({ e with id := n } :: r.1, r.2)

/-- Creation spec for `addSource`. -/
structure SourceSpec where
  name : String
  type : MediaType
  path : String
  duration : ℚ
  width : Nat
  height : Nat
deriving DecidableEq

/-- Creation spec for `addTrack` (field set as passed by the translator's
add-track case). -/
structure TrackSpec where
  type : MediaType
  name : String
  order : Option Nat
  isMuted : Bool
  isLocked : Bool
  isVisible : Bool
deriving DecidableEq

/-- Creation spec for `addClip`; duration and source start offset are optional
and defaulted from the referenced source. -/
structure ClipSpec where
  sourceId : Nat
  trackId : Nat
  startTime : ℚ
  duration : Option ℚ
  sourceStartOffset : Option ℚ
deriving DecidableEq

/-- Creation spec for `addEffect` (field set as passed by the translator's
add-effect case). -/
structure EffectSpec where
  type : String
  startTime : ℚ
  duration : ℚ
  params : List (String × PValue)
deriving DecidableEq

/-- Modelled from the spec: a project is created empty with one default video
and one default audio track (the `Project` engine class is not under src/;
its callers and the CLI tests fix this shape). -/
def createProject (name : String) (a : Aspect) (fr : Nat) : EngineState :=
  let vt : Track := ⟨0, .video, "Video 1", 0, false, false, true⟩
  let au : Track := ⟨1, .audio, "Audio 1", 0, false, false, true⟩
  ⟨⟨name, a, fr, 0, [], [vt, au], []⟩, 2⟩

/-- Modelled from the spec: `addSource` always succeeds and appends a new
source with a generated id. -/
def addSource (st : EngineState) (sp : SourceSpec) : EngineState × Source :=
  let src : Source := ⟨st.nextId, sp.name, sp.type, sp.path, sp.duration, sp.width, sp.height⟩
  (⟨{ st.project with sources := st.project.sources ++ [src] }, st.nextId + 1⟩, src)

/-- Modelled from the spec: `addTrack` appends a new track; the order index
defaults to the current track count of that type when unspecified. -/
def addTrack (st : EngineState) (sp : TrackSpec) : EngineState × Track :=
  let ord := sp.order.getD (st.project.tracks.filter (fun t => t.type == sp.type)).length
  let tr : Track := ⟨st.nextId, sp.type, sp.name, ord, sp.isMuted, sp.isLocked, sp.isVisible⟩
  (⟨{ st.project with tracks := st.project.tracks ++ [tr] }, st.nextId + 1⟩, tr)

/-- Modelled from the spec: `addClip` requires the source and track ids to
reference existing entities (ReferenceError otherwise), defaults the duration
from the source's duration minus the start offset, and recomputes the project
duration after insertion. -/
def addClip (st : EngineState) (sp : ClipSpec) : EResult (EngineState × Clip) :=
  match findSource st.project sp.sourceId with
  | none => .error .referenceError
  | some src =>
    match findTrack st.project sp.trackId with
    | none => .error .referenceError
    | some _ =>
      let off := sp.sourceStartOffset.getD 0
      let dur := sp.duration.getD (src.duration - off)
      let c : Clip := ⟨st.nextId, sp.sourceId, sp.trackId, sp.startTime, dur, off, off + dur, []⟩
      .ok (⟨recompute { st.project with clips := st.project.clips ++ [c] }, st.nextId + 1⟩, c)

/-- Run `addClip` the way the CLI layer observes it: on an exception the store
is left exactly as it was and failure is reported. -/
def attemptAddClip (st : EngineState) (sp : ClipSpec) : EngineState × Bool :=
  match addClip st sp with
  | .ok (st', _) => (st', true)
  | .error _ => (st, false)

/-- Modelled from the spec: `trimClipStart` moves the clip's in-point, clamping
the source start offset to `[0, sourceEndOffset)` (an out-of-window request
keeps the previous offset), shifts the timeline position by the same delta and
keeps the duration consistent with the offset window; NotFoundError on an
unknown id; recomputes the project duration. -/
def trimClipStart (st : EngineState) (id : Nat) (t : ℚ) : EResult EngineState :=
  match findClip st.project id with
  | none => .error .notFound
  | some c =>
    let off0 := max 0 t
    let off := if off0 < c.sourceEndOffset then off0 else c.sourceStartOffset
    let delta := off - c.sourceStartOffset
    let c' := { c with sourceStartOffset := off, startTime := c.startTime + delta,
                       duration := c.sourceEndOffset - off }
    .ok ⟨recompute { st.project with clips := replaceClip st.project.clips id c' }, st.nextId⟩

/-- Modelled from the spec: `trimClipEnd` sets the duration directly
(InvalidRangeError on a non-positive duration), recomputes
`sourceEndOffset = sourceStartOffset + newDuration` clamped to the source's
own duration when known, and recomputes the project duration. -/
def trimClipEnd (st : EngineState) (id : Nat) (d : ℚ) : EResult EngineState :=
  match findClip st.project id with
  | none => .error .notFound
  | some c =>
    if d ≤ 0 then .error .invalidRange
    else
      let rawEnd := c.sourceStartOffset + d
      let newEnd :=
        match findSource st.project c.sourceId with
        | some src => if 0 < src.duration then min rawEnd src.duration else rawEnd
        | none => rawEnd
      let c' := { c with duration := d, sourceEndOffset := newEnd }
      .ok ⟨recompute { st.project with clips := replaceClip st.project.clips id c' }, st.nextId⟩

/-- Modelled from the spec: `splitClip` requires the split time strictly inside
the clip span (InvalidRangeError otherwise) and replaces the clip with two
clips: the first keeps the original id and the effects starting before the
split point; the second gets a fresh id, starts at the split point with the
source start offset advanced by the split delta, and takes the remaining
effects rebased to the second half. -/
def splitClip (st : EngineState) (id : Nat) (t : ℚ) : EResult EngineState :=
  match findClip st.project id with
  | none => .error .notFound
  | some c =>
    if c.startTime < t ∧ t < clipEnd c then
      let delta := t - c.startTime
      let a : Clip := { c with duration := delta,
                               sourceEndOffset := c.sourceStartOffset + delta,
                               effects := c.effects.filter (fun e => decide (e.startTime < delta)) }
      let b : Clip := ⟨st.nextId, c.sourceId, c.trackId, t, c.duration - delta,
                       c.sourceStartOffset + delta, c.sourceEndOffset,
                       (c.effects.filter (fun e => ! decide (e.startTime < delta))).map
                         (fun e => { e with startTime := e.startTime - delta })⟩
      .ok ⟨recompute { st.project with clips := splitReplace st.project.clips id a b },
           st.nextId + 1⟩
    else .error .invalidRange

/-- Modelled from the spec: `duplicateClip` clones a clip (fresh id, cloned
effects with fresh ids) at the given start time, defaulting to immediately
after the original; NotFoundError on an unknown id. -/
def duplicateClip (st : EngineState) (id : Nat) (newStart : Option ℚ) : EResult EngineState :=
  match findClip st.project id with
  | none => .error .notFound
  | some c =>
    let r := cloneEffects c.effects (st.nextId + 1)
    let nc : Clip := ⟨st.nextId, c.sourceId, c.trackId, newStart.getD (clipEnd c), c.duration,
                      c.sourceStartOffset, c.sourceEndOffset, r.1⟩
    .ok ⟨recompute { st.project with clips := st.project.clips ++ [nc] }, r.2⟩

/-- Modelled from the spec: `moveClip` reassigns track and start time with no
collision resolution; NotFoundError on an unknown id. -/
def moveClip (st : EngineState) (id : Nat) (newTrack : Nat) (newStart : ℚ) : EResult EngineState :=
  match findClip st.project id with
  | none => .error .notFound
  | some c =>
    let c' := { c with trackId := newTrack, startTime := newStart }
    .ok ⟨recompute { st.project with clips := replaceClip st.project.clips id c' }, st.nextId⟩

/-- Modelled from the spec: `removeClip` is a total soft-fail operation — it
removes the clip (and, by ownership, its effects) and returns true, or returns
false when the id is unknown; it never throws. -/
def removeClip (st : EngineState) (id : Nat) : EngineState × Bool :=
  if (findClip st.project id).isSome then
    (⟨recompute { st.project with clips := st.project.clips.filter (fun c => c.id != id) },
      st.nextId⟩, true)
  else (st, false)

/-- Modelled from the spec: `addEffect` appends a new effect to the clip's
effect list, or soft-fails with `none` when the clip id is unknown. -/
def addEffect (st : EngineState) (id : Nat) (sp : EffectSpec) : EngineState × Option Effect :=
  match findClip st.project id with
  | none => (st, none)
  | some c =>
    let e : Effect := ⟨st.nextId, sp.type, sp.startTime, sp.duration, sp.params⟩
    let c' := { c with effects := c.effects ++ [e] }
    (⟨{ st.project with clips := replaceClip st.project.clips id c' }, st.nextId + 1⟩, some e)

/-- Project duration of a successful `addClip` result. -/
def okDuration : EResult (EngineState × Clip) → Option ℚ
  | .ok (st, _) => some st.project.duration
  | .error _ => none

/-- The duration invariant: the stored project duration equals the maximum
clip end, 0 when there are no clips. -/
def durInv (st : EngineState) : Prop :=
  st.project.duration = maxEnd st.project.clips

/-- Well-minted ids: every clip id currently in the project was generated
below the fresh-id counter. -/
def wfIds (st : EngineState) : Prop :=
  ∀ c ∈ st.project.clips, c.id < st.nextId

/-! ## Serialization

Modelled from the spec: the persisted project file is a versioned document
with a top-level `version` tag and a `state` object holding the project
metadata and the `sources[]`, `tracks[]`, `clips[]` collections (each clip
embedding its effects). -/

/-- Project metadata block of the persisted document. -/
structure DocMeta where
  name : String
  aspect : Aspect
  frameRate : Nat
  duration : ℚ
deriving DecidableEq

/-- The `state` object of the persisted document. -/
structure DocState where
  project : DocMeta
  sources : List Source
  tracks : List Track
  clips : List Clip
deriving DecidableEq

/-- A versioned persisted project document. -/
structure ProjectDocument where
  version : String
  state : DocState
deriving DecidableEq

/-- The document format version written by this build. -/
def formatVersion : String := "1.0.0"

/-- Modelled from the spec: `serialize` (the engine's `toJSON`) writes every
field of the data model into a versioned document. -/
def serialize (p : Project) : ProjectDocument :=
  ⟨formatVersion, ⟨⟨p.name, p.aspect, p.frameRate, p.duration⟩, p.sources, p.tracks, p.clips⟩⟩

/-- Modelled from the spec: `deserialize` (the engine's `fromJSON`) rejects an
unknown version with UnsupportedVersionError and otherwise rebuilds the
project from the document fields. -/
def deserialize (d : ProjectDocument) : EResult Project :=
  if d.version = formatVersion then
    .ok ⟨d.state.project.name, d.state.project.aspect, d.state.project.frameRate,
         d.state.project.duration, d.state.sources, d.state.tracks, d.state.clips⟩
  else .error .unsupportedVersion

/-! ## Command Translator

Embedded from `src/unnamed/part_000` lines 1661-1747 (`executeCommand`) and
lines 265-269 (the `executed/total` batch loop of the `ai edit` action).
JS truthiness tests on optional numeric parameters (`if (params.newDuration)`,
`params.splitTime &&`), the `||` defaults and the `??` default are modelled
explicitly. -/

/-- Parameter bag of a timeline command (the fields `executeCommand` reads
from `params`); an absent field is `none`. -/
structure CmdParams where
  newDuration : Option ℚ := none
  startTrim : Option ℚ := none
  splitTime : Option ℚ := none
  newStartTime : Option ℚ := none
  newTrackId : Option Nat := none
  effectType : Option String := none
  startTime : Option ℚ := none
  duration : Option ℚ := none
  trackType : Option MediaType := none
deriving DecidableEq

/-- A generic timeline command: action name, target clip ids, parameters. -/
structure TimelineCommand where
  action : String
  clipIds : List Nat
  params : CmdParams
deriving DecidableEq

/-- JS truthiness of an optional number: absent, 0 are falsy. -/
def truthyNum (o : Option ℚ) : Bool :=
  match o with
  | none => false
  | some x => decide (x ≠ 0)

/-- JS `x || d` for an optional number: absent or 0 gives the default. -/
def orElseNum (o : Option ℚ) (d : ℚ) : ℚ :=
  match o with
  | none => d
  | some x => if x = 0 then d else x

/-- JS `x || d` for an optional string: absent or empty gives the default. -/
def orElseStr (o : Option String) (d : String) : String :=
  match o with
  | none => d
  | some s => if s = "" then d else s

/-- The `trim` case loop: for each clip id, apply `trimClipEnd` when
`newDuration` is truthy and `trimClipStart` when `startTrim` is truthy; a
thrown engine error is caught, keeping the mutations made so far and
reporting failure. -/
def trimLoop (p : CmdParams) : List Nat → EngineState → EngineState × Bool
  | [], st => (st, true)
  | id :: rest, st =>
    match (if truthyNum p.newDuration then trimClipEnd st id (p.newDuration.getD 0)
           else .ok st) with
    | .error _ => (st, false)
    | .ok st1 =>
      match (if truthyNum p.startTrim then trimClipStart st1 id (p.startTrim.getD 0)
             else .ok st1) with
      | .error _ => (st1, false)
      | .ok st2 => trimLoop p rest st2

/-- The `remove-clip` case loop: remove each id, discarding the boolean result. -/
def removeLoop : List Nat → EngineState → EngineState
  | [], st => st
  | id :: rest, st => removeLoop rest (removeClip st id).1

/-- The `duplicate` case loop. -/
def dupLoop (newStart : Option ℚ) : List Nat → EngineState → EngineState × Bool
  | [], st => (st, true)
  | id :: rest, st =>
    match duplicateClip st id newStart with
    | .error _ => (st, false)
    | .ok st' => dupLoop newStart rest st'

/-- The `move` case loop: ids that resolve to no clip are skipped. -/
def moveLoop (p : CmdParams) : List Nat → EngineState → EngineState × Bool
  | [], st => (st, true)
  | id :: rest, st =>
    match findClip st.project id with
    | none => moveLoop p rest st
    | some c =>
      match moveClip st id (p.newTrackId.getD c.trackId) (p.newStartTime.getD c.startTime) with
      | .error _ => (st, false)
      | .ok st' => moveLoop p rest st'

/-- The `add-effect` case loop (soft-failing, never throws). -/
def effectLoop (p : CmdParams) : List Nat → EngineState → EngineState
  | [], st => st
  | id :: rest, st =>
    let sp : EffectSpec := ⟨orElseStr p.effectType "fadeIn", orElseNum p.startTime 0,
                            orElseNum p.duration 1, []⟩
    effectLoop p rest (addEffect st id sp).1

/-- The `add-track` case body. -/
def addTrackCmd (st : EngineState) (p : CmdParams) : EngineState :=
  let tt := p.trackType.getD .video
  let n := st.project.tracks.length
  (addTrack st ⟨tt, tt.label ++ "-track-" ++ toString (n + 1), some n,
                false, false, true⟩).1

/-- `executeCommand` from `src/unnamed/part_000` lines 1661-1747: dispatch one
timeline command to the Project Engine, catching any engine exception and
converting it into a per-command boolean outcome. -/
def executeCommand (st : EngineState) (cmd : TimelineCommand) : EngineState × Bool :=
  if cmd.action = "trim" then trimLoop cmd.params cmd.clipIds st
  else if cmd.action = "remove-clip" then (removeLoop cmd.clipIds st, true)
  else if cmd.action = "split" then
    match cmd.clipIds with
    | [] => (st, true)
    | id :: _ =>
      if truthyNum cmd.params.splitTime then
        match splitClip st id (cmd.params.splitTime.getD 0) with
        | .error _ => (st, false)
        | .ok st' => (st', true)
      else (st, true)
  else if cmd.action = "duplicate" then dupLoop cmd.params.newStartTime cmd.clipIds st
  else if cmd.action = "move" then moveLoop cmd.params cmd.clipIds st
  else if cmd.action = "add-effect" then (effectLoop cmd.params cmd.clipIds st, true)
  else if cmd.action = "remove-effect" then (st, false)
  else if cmd.action = "set-volume" then (st, false)
  else if cmd.action = "add-track" then (addTrackCmd st cmd.params, true)
  else (st, false)

/-- The action names `executeCommand` has a switch case for. -/
def knownAction (a : String) : Prop :=
  a = "trim" ∨ a = "remove-clip" ∨ a = "split" ∨ a = "duplicate" ∨ a = "move" ∨
  a = "add-effect" ∨ a = "remove-effect" ∨ a = "set-volume" ∨ a = "add-track"

instance (a : String) : Decidable (knownAction a) := by
  unfold knownAction
  infer_instance

/-- The `ai edit` batch loop from `src/unnamed/part_000` lines 265-269:
execute the commands in queue order against the shared project, counting the
commands that report success. -/
def runBatch : List TimelineCommand → EngineState → EngineState × Nat
  | [], st => (st, 0)
  | c :: rest, st =>
    let r := executeCommand st c
    let r2 := runBatch rest r.1
    (r2.1, (if r.2 then 1 else 0) + r2.2)

/-! ## Concrete states used by the witnesses -/

/-- A demo source of duration 10 (the id a fresh project would mint for it). -/
def demoSource : Source := ⟨2, "sample.mp4", .video, "/tmp/sample.mp4", 10, 1920, 1080⟩

/-- The default video track of a fresh project. -/
def demoVideoTrack : Track := ⟨0, .video, "Video 1", 0, false, false, true⟩

/-- The default audio track of a fresh project. -/
def demoAudioTrack : Track := ⟨1, .audio, "Audio 1", 0, false, false, true⟩

/-- A fresh demo project holding the demo source and no clips. -/
def demoBase : EngineState :=
  ⟨⟨"Demo", .a16x9, 30, 0, [demoSource], [demoVideoTrack, demoAudioTrack], []⟩, 3⟩

/-- The clip held by `demoState`: the demo source placed at start time 0 with
duration 10 and offset window 0..10. -/
def demoClip : Clip := ⟨3, 2, 0, 0, 10, 0, 10, []⟩

/-- The demo project with `demoClip` placed on the video track. -/
def demoState : EngineState :=
  ⟨⟨"Demo", .a16x9, 30, 10, [demoSource], [demoVideoTrack, demoAudioTrack], [demoClip]⟩, 4⟩

/-- A demo remove-clip command with no targets. -/
def demoCmdRemove : TimelineCommand := ⟨"remove-clip", [], {}⟩

/-- A demo command whose action no switch case handles. -/
def demoCmdUnknown : TimelineCommand := ⟨"foobar", [], {}⟩

/-- A demo add-track command. -/
def demoCmdTrack : TimelineCommand := ⟨"add-track", [], {}⟩

/-- Trim parameters requesting a tail trim to duration 5. -/
def demoTrimParams : CmdParams := { newDuration := some 5 }

/-- Trim parameters whose requested trims are both zero. -/
def demoZeroTrim : CmdParams := { newDuration := some 0, startTrim := some 0 }

/-- A clip spec referencing a source id that does not exist in `demoState`. -/
def demoBadClipSpec : ClipSpec := ⟨42, 0, 0, some 1, none⟩

/-! ## Helper lemmas -/

/-- Any state built over a recomputed project satisfies the duration invariant. -/
theorem durInv_recompute (p : Project) (n : Nat) : durInv ⟨recompute p, n⟩ := rfl

/-- A successful `addClip` leaves the duration invariant established. -/
theorem addClip_durInv (st : EngineState) (sp : ClipSpec) (st' : EngineState) (c : Clip)
    (h : addClip st sp = .ok (st', c)) : durInv st' := by
  unfold addClip at h
  cases hs : findSource st.project sp.sourceId with
  | none => rw [hs] at h; exact absurd h (by simp)
  | some src =>
    rw [hs] at h
    cases ht : findTrack st.project sp.trackId with
    | none => rw [ht] at h; exact absurd h (by simp)
    | some tr =>
      rw [ht] at h
      injection h with h2
      injection h2 with h3 h4
      exact h3 ▸ durInv_recompute _ _

/-- A successful `trimClipStart` leaves the duration invariant established. -/
theorem trimClipStart_durInv (st : EngineState) (id : Nat) (t : ℚ) (st' : EngineState)
    (h : trimClipStart st id t = .ok st') : durInv st' := by
  unfold trimClipStart at h
  split at h
  · exact absurd h (by simp)
  · injection h with h2
    exact h2 ▸ durInv_recompute _ _

/-- A successful `trimClipEnd` leaves the duration invariant established. -/
theorem trimClipEnd_durInv (st : EngineState) (id : Nat) (d : ℚ) (st' : EngineState)
    (h : trimClipEnd st id d = .ok st') : durInv st' := by
  unfold trimClipEnd at h
  split at h
  · exact absurd h (by simp)
  · split at h
    · exact absurd h (by simp)
    · injection h with h2
      exact h2 ▸ durInv_recompute _ _

/-- A successful `splitClip` leaves the duration invariant established. -/
theorem splitClip_durInv (st : EngineState) (id : Nat) (t : ℚ) (st' : EngineState)
    (h : splitClip st id t = .ok st') : durInv st' := by
  unfold splitClip at h
  split at h
  · exact absurd h (by simp)
  · split at h
    · injection h with h2
      exact h2 ▸ durInv_recompute _ _
    · exact absurd h (by simp)

/-- A successful `duplicateClip` leaves the duration invariant established. -/
theorem duplicateClip_durInv (st : EngineState) (id : Nat) (o : Option ℚ) (st' : EngineState)
    (h : duplicateClip st id o = .ok st') : durInv st' := by
  unfold duplicateClip at h
  split at h
  · exact absurd h (by simp)
  · injection h with h2
    exact h2 ▸ durInv_recompute _ _

/-- A successful `moveClip` leaves the duration invariant established. -/
theorem moveClip_durInv (st : EngineState) (id : Nat) (tr : Nat) (t : ℚ) (st' : EngineState)
    (h : moveClip st id tr t = .ok st') : durInv st' := by
  unfold moveClip at h
  split at h
  · exact absurd h (by simp)
  · injection h with h2
    exact h2 ▸ durInv_recompute _ _

/-- A `removeClip` call that reports success leaves the duration invariant
established. -/
theorem removeClip_durInv (st : EngineState) (id : Nat)
    (h : (removeClip st id).2 = true) : durInv (removeClip st id).1 := by
  unfold removeClip at h ⊢
  by_cases hc : (findClip st.project id).isSome
  · rw [if_pos hc]
    exact durInv_recompute _ _
  · rw [if_neg hc] at h
    exact absurd h (by simp)

/-- `removeClip` on a missing id is an observable no-op reporting false. -/
theorem removeClip_unknown (st : EngineState) (id : Nat)
    (h : findClip st.project id = none) : removeClip st id = (st, false) := by
  unfold removeClip
  rw [h]
  simp

/-- A command whose action has no switch case leaves the project untouched and
reports failure. -/
theorem executeCommand_unknown (st : EngineState) (cmd : TimelineCommand)
    (h : ¬ knownAction cmd.action) : executeCommand st cmd = (st, false) := by
  unfold knownAction at h
  push_neg at h
  obtain ⟨h1, h2, h3, h4, h5, h6, h7, h8, h9⟩ := h
  unfold executeCommand
  rw [if_neg h1, if_neg h2, if_neg h3, if_neg h4, if_neg h5, if_neg h6, if_neg h7,
      if_neg h8, if_neg h9]

/-- Deleting an unknown-action command from a batch changes neither the final
state nor the executed count. -/
theorem runBatch_skip (u : TimelineCommand) (hu : ¬ knownAction u.action)
    (pre post : List TimelineCommand) (st : EngineState) :
    runBatch (pre ++ u :: post) st = runBatch (pre ++ post) st := by
  induction pre generalizing st with
  | nil =>
    simp only [List.nil_append, runBatch, executeCommand_unknown st u hu]
    simp
  | cons c pre ih =>
    simp only [List.cons_append, runBatch, List.append_eq]
    rw [ih]

/-- The trim loop with both trim parameters falsy mutates nothing and succeeds. -/
theorem trimLoop_noop (p : CmdParams) (h1 : truthyNum p.newDuration = false)
    (h2 : truthyNum p.startTrim = false) :
    ∀ (ids : List Nat) (st : EngineState), trimLoop p ids st = (st, true) := by
  intro ids
  induction ids with
  | nil => intro st; rfl
  | cons id rest ih =>
    intro st
    simp only [trimLoop, h1, h2, Bool.false_eq_true, if_false, ih]

/-! ## Claim theorems -/

/-- C1: after every mutating Project Engine operation (addClip, trimClipStart,
trimClipEnd, splitClip, duplicateClip, moveClip, removeClip) the project's
stored total duration equals the maximum over all clips of
startTime + duration, 0 when there are no clips; in particular adding a clip
with startTime 5 and duration 10 to a fresh project (holding a duration-10
source) yields project duration 15. -/
theorem duration_invariant_all_ops :
    (∀ (st : EngineState) (sp : ClipSpec) (st' : EngineState) (c : Clip),
      addClip st sp = .ok (st', c) → durInv st') ∧
    (∀ (st : EngineState) (id : Nat) (t : ℚ) (st' : EngineState),
      trimClipStart st id t = .ok st' → durInv st') ∧
    (∀ (st : EngineState) (id : Nat) (d : ℚ) (st' : EngineState),
      trimClipEnd st id d = .ok st' → durInv st') ∧
    (∀ (st : EngineState) (id : Nat) (t : ℚ) (st' : EngineState),
      splitClip st id t = .ok st' → durInv st') ∧
    (∀ (st : EngineState) (id : Nat) (o : Option ℚ) (st' : EngineState),
      duplicateClip st id o = .ok st' → durInv st') ∧
    (∀ (st : EngineState) (id tr : Nat) (t : ℚ) (st' : EngineState),
      moveClip st id tr t = .ok st' → durInv st') ∧
    (∀ (st : EngineState) (id : Nat),
      (removeClip st id).2 = true → durInv (removeClip st id).1) ∧
    okDuration (addClip demoBase ⟨2, 0, 5, some 10, none⟩) = some 15 := by
  refine ⟨addClip_durInv, trimClipStart_durInv, trimClipEnd_durInv, splitClip_durInv,
    duplicateClip_durInv, moveClip_durInv, removeClip_durInv, ?_⟩
  have h1 : findSource demoBase.project 2 = some demoSource := rfl
  have h2 : findTrack demoBase.project 0 = some demoVideoTrack := rfl
  simp only [addClip, h1, h2, okDuration]
  simp only [recompute, maxEnd, clipEnd, Option.getD, List.foldr_cons, List.foldr_nil]
  norm_num [demoBase]

/-- Witness for C1: on the concrete demo state the removeClip conjunct applies
and its hypothesis holds. -/
theorem duration_invariant_all_ops_witness :
    (removeClip demoState 3).2 = true ∧ durInv (removeClip demoState 3).1 :=
  ⟨by decide, duration_invariant_all_ops.2.2.2.2.2.2.1 demoState 3 (by decide)⟩

/-- C2: for a clip C and a split time t strictly inside its span, splitClip
replaces C by exactly two clips A and B with A.startTime = C.startTime,
B.startTime = t, A.duration + B.duration = C.duration,
A.sourceEndOffset = B.sourceStartOffset; A keeps C's id and B's id is fresh
(distinct from every clip id already in the project). -/
theorem split_law (st : EngineState) (id : Nat) (t : ℚ) (c : Clip)
    (hw : wfIds st)
    (hc : findClip st.project id = some c)
    (hlo : c.startTime < t) (hhi : t < clipEnd c) :
    ∃ st' a b, splitClip st id t = .ok st' ∧
      st'.project.clips = splitReplace st.project.clips id a b ∧
      a.id = c.id ∧ a.startTime = c.startTime ∧ b.startTime = t ∧
      a.duration + b.duration = c.duration ∧
      a.sourceEndOffset = b.sourceStartOffset ∧
      ∀ x ∈ st.project.clips, b.id ≠ x.id := by
  unfold splitClip
  simp only [hc]
  rw [if_pos ⟨hlo, hhi⟩]
  refine ⟨_, _, _, rfl, rfl, rfl, rfl, rfl, by ring, rfl, ?_⟩
  intro x hx
  exact (Nat.ne_of_lt (hw x hx)).symm

/-- Witness for C2: splitting the demo clip (span 0..10) at time 4. -/
theorem split_law_witness :
    wfIds demoState ∧
    (∃ st' a b, splitClip demoState 3 4 = .ok st' ∧
      st'.project.clips = splitReplace demoState.project.clips 3 a b ∧
      a.id = demoClip.id ∧ a.startTime = demoClip.startTime ∧ b.startTime = 4 ∧
      a.duration + b.duration = demoClip.duration ∧
      a.sourceEndOffset = b.sourceStartOffset ∧
      ∀ x ∈ demoState.project.clips, b.id ≠ x.id) :=
  ⟨by unfold wfIds; decide,
   split_law demoState 3 4 demoClip (by unfold wfIds; decide) rfl
     (by decide) (by norm_num [clipEnd, demoClip])⟩

/-- C3: deserialization of a serialized project reconstructs every field
exactly — ids, times, durations, offsets, effect lists and track order — for
every project state. -/
theorem serialize_deserialize_roundtrip (p : Project) :
    deserialize (serialize p) = .ok p := rfl

/-- C4: a command with an unknown action is reported as failed and is skipped
without aborting the batch: the batch runs to the same final state and the
same executed count as the batch without it, and when every other command
succeeds the aggregate is executed = total - 1. -/
theorem batch_unknown_action_isolated
    (st : EngineState) (pre post : List TimelineCommand) (u : TimelineCommand)
    (hu : ¬ knownAction u.action) :
    executeCommand st u = (st, false) ∧
    runBatch (pre ++ u :: post) st = runBatch (pre ++ post) st ∧
    ((runBatch (pre ++ post) st).2 = (pre ++ post).length →
      (runBatch (pre ++ u :: post) st).2 = (pre ++ u :: post).length - 1) := by
  refine ⟨executeCommand_unknown st u hu, runBatch_skip u hu pre post st, ?_⟩
  intro hall
  rw [runBatch_skip u hu pre post st, hall]
  simp [List.length_append]

/-- Witness for C4: a three-command batch whose middle command has the unknown
action "foobar" executes 2 of 3 commands. -/
theorem batch_unknown_action_isolated_witness :
    ¬ knownAction demoCmdUnknown.action ∧
    (runBatch [demoCmdRemove, demoCmdTrack] demoState).2 =
      [demoCmdRemove, demoCmdTrack].length ∧
    (runBatch [demoCmdRemove, demoCmdUnknown, demoCmdTrack] demoState).2 =
      [demoCmdRemove, demoCmdUnknown, demoCmdTrack].length - 1 :=
  ⟨by decide, by decide,
   (batch_unknown_action_isolated demoState [demoCmdRemove] [demoCmdTrack]
     demoCmdUnknown (by decide)).2.2 (by decide)⟩

/-- C5: when a dispatched Project Engine operation throws (trimClipEnd,
trimClipStart, splitClip or duplicateClip — the fallible dispatch targets),
executeCommand catches the exception and converts it into the per-command
boolean outcome false instead of propagating it. -/
theorem translator_catches_engine_errors :
    (∀ (st : EngineState) (id : Nat) (rest : List Nat) (p : CmdParams) (e : EngineError),
      truthyNum p.newDuration = true →
      trimClipEnd st id (p.newDuration.getD 0) = .error e →
      executeCommand st ⟨"trim", id :: rest, p⟩ = (st, false)) ∧
    (∀ (st : EngineState) (id : Nat) (rest : List Nat) (p : CmdParams) (e : EngineError),
      truthyNum p.newDuration = false → truthyNum p.startTrim = true →
      trimClipStart st id (p.startTrim.getD 0) = .error e →
      executeCommand st ⟨"trim", id :: rest, p⟩ = (st, false)) ∧
    (∀ (st : EngineState) (id : Nat) (rest : List Nat) (p : CmdParams) (e : EngineError) (t : ℚ),
      p.splitTime = some t → t ≠ 0 →
      splitClip st id t = .error e →
      executeCommand st ⟨"split", id :: rest, p⟩ = (st, false)) ∧
    (∀ (st : EngineState) (id : Nat) (rest : List Nat) (p : CmdParams) (e : EngineError),
      duplicateClip st id p.newStartTime = .error e →
      executeCommand st ⟨"duplicate", id :: rest, p⟩ = (st, false)) := by
  refine ⟨?_, ?_, ?_, ?_⟩
  · intro st id rest p e ht herr
    show trimLoop p (id :: rest) st = (st, false)
    simp [trimLoop, ht, herr]
  · intro st id rest p e hf ht herr
    show trimLoop p (id :: rest) st = (st, false)
    simp [trimLoop, hf, ht, herr]
  · intro st id rest p e t hsp ht herr
    show (if truthyNum p.splitTime then
            match splitClip st id (p.splitTime.getD 0) with
            | .error _ => (st, false)
            | .ok st' => (st', true)
          else (st, true)) = (st, false)
    simp [truthyNum, hsp, ht, herr]
  · intro st id rest p e herr
    show dupLoop p.newStartTime (id :: rest) st = (st, false)
    simp [dupLoop, herr]

/-- Witness for C5: a trim command whose target clip id 99 does not exist
throws NotFoundError inside the engine and is reported as a false outcome. -/
theorem translator_catches_engine_errors_witness :
    truthyNum demoTrimParams.newDuration = true ∧
    trimClipEnd demoState 99 (demoTrimParams.newDuration.getD 0) = .error .notFound ∧
    executeCommand demoState ⟨"trim", [99], demoTrimParams⟩ = (demoState, false) :=
  ⟨by decide, by decide,
   translator_catches_engine_errors.1 demoState 99 [] demoTrimParams .notFound
     (by decide) (by decide)⟩

/-- C6: removeClip never throws; called twice with the same (present) id it
returns true first (removing the clip and, with it, its effects) and false
second, the id no longer resolving to a clip. -/
theorem removeClip_soft_idempotent (st : EngineState) (id : Nat)
    (h : (findClip st.project id).isSome = true) :
    (removeClip st id).2 = true ∧
    findClip (removeClip st id).1.project id = none ∧
    removeClip (removeClip st id).1 id = ((removeClip st id).1, false) := by
  have h1 : (removeClip st id).2 = true := by
    unfold removeClip
    rw [if_pos h]
  have hnone : findClip (removeClip st id).1.project id = none := by
    unfold removeClip
    rw [if_pos h]
    unfold findClip recompute
    rw [List.find?_eq_none]
    intro x hx
    have hpx := List.of_mem_filter hx
    simpa using hpx
  exact ⟨h1, hnone, removeClip_unknown _ _ hnone⟩

/-- Witness for C6: removing demo clip 3 twice. -/
theorem removeClip_soft_idempotent_witness :
    (findClip demoState.project 3).isSome = true ∧
    ((removeClip demoState 3).2 = true ∧
     findClip (removeClip demoState 3).1.project 3 = none ∧
     removeClip (removeClip demoState 3).1 3 = ((removeClip demoState 3).1, false)) :=
  ⟨by decide, removeClip_soft_idempotent demoState 3 (by decide)⟩

/-- C7: addClip with a sourceId or trackId referencing no existing entity
fails with ReferenceError (a constructor distinct from NotFoundError) and
leaves the store completely unchanged — in particular the clip count. -/
theorem addClip_missing_reference_atomic (st : EngineState) (sp : ClipSpec)
    (h : findSource st.project sp.sourceId = none ∨ findTrack st.project sp.trackId = none) :
    addClip st sp = .error .referenceError ∧
    attemptAddClip st sp = (st, false) ∧
    (attemptAddClip st sp).1.project.clips.length = st.project.clips.length ∧
    EngineError.referenceError ≠ EngineError.notFound := by
  have herr : addClip st sp = .error .referenceError := by
    unfold addClip
    rcases h with h | h
    · rw [h]
    · cases hs : findSource st.project sp.sourceId with
      | none => rfl
      | some src => simp only [h]
  refine ⟨herr, ?_, ?_, by simp⟩
  · unfold attemptAddClip
    rw [herr]
  · unfold attemptAddClip
    rw [herr]

/-- Witness for C7: adding a clip over the nonexistent source id 42. -/
theorem addClip_missing_reference_atomic_witness :
    findSource demoState.project demoBadClipSpec.sourceId = none ∧
    (addClip demoState demoBadClipSpec = .error .referenceError ∧
     attemptAddClip demoState demoBadClipSpec = (demoState, false) ∧
     (attemptAddClip demoState demoBadClipSpec).1.project.clips.length =
       demoState.project.clips.length ∧
     EngineError.referenceError ≠ EngineError.notFound) :=
  ⟨by decide,
   addClip_missing_reference_atomic demoState demoBadClipSpec (Or.inl (by decide))⟩

/-- C8: the actions remove-effect and set-volume are accepted syntactically but
always report failure without mutating the project. -/
theorem unimplemented_actions_report_failure (st : EngineState) (ids : List Nat)
    (p : CmdParams) :
    executeCommand st ⟨"remove-effect", ids, p⟩ = (st, false) ∧
    executeCommand st ⟨"set-volume", ids, p⟩ = (st, false) := ⟨rfl, rfl⟩

/-- C9: the remove-clip action returns true for every target list — the
boolean results of the underlying removeClip calls are discarded — so a
remove-clip command over stale ids (or none at all) still counts as an
executed success in the batch tally. -/
theorem remove_clip_action_always_true (st : EngineState) (ids : List Nat)
    (p : CmdParams) :
    (executeCommand st ⟨"remove-clip", ids, p⟩).2 = true ∧
    executeCommand st ⟨"remove-clip", ids, p⟩ = (removeLoop ids st, true) ∧
    (runBatch [⟨"remove-clip", ids, p⟩] st).2 = 1 := ⟨rfl, rfl, rfl⟩

/-- C10: a trim command whose newDuration and startTrim are absent or 0 (JS
falsy) performs no mutation at all yet still reports success. -/
theorem trim_zero_params_noop (st : EngineState) (ids : List Nat) (p : CmdParams)
    (h1 : truthyNum p.newDuration = false) (h2 : truthyNum p.startTrim = false) :
    executeCommand st ⟨"trim", ids, p⟩ = (st, true) := by
  show trimLoop p ids st = (st, true)
  exact trimLoop_noop p h1 h2 ids st

/-- Witness for C10: a trim of clip 3 requesting newDuration 0 and startTrim 0
is silently ignored and reported as success. -/
theorem trim_zero_params_noop_witness :
    truthyNum demoZeroTrim.newDuration = false ∧
    truthyNum demoZeroTrim.startTrim = false ∧
    executeCommand demoState ⟨"trim", [3], demoZeroTrim⟩ = (demoState, true) :=
  ⟨by decide, by decide,
   trim_zero_params_noop demoState [3] demoZeroTrim (by decide) (by decide)⟩

end VibeEdit
